import Mathlib

/-!
Shallow embedding of the `client-request` library (src/index.mjs): an
outbound HTTP(S) client helper.  Pure parts of the pipeline (options
building, body encoding, header mutation, percent encoding) are embedded
as Lean functions; the asynchronous dispatch is embedded as a function of
the single terminal transport event (error, timeout firing, or a complete
response), which is the one suspend point of the source.  The external
collaborators — the WHATWG URL parser of `node:url` and the body decoder
`parseRequestBody` of `@popovmp/request-parser` — enter the model as
inputs: a parse outcome `Option URLObj` and a `decodeBody` function
parameter.
-/

namespace ClientRequest

/-- A JS byte buffer (`Buffer`): a list of byte values. -/
abbrev Bytes := List Nat

/-- The request/response header map.  JS objects are embedded as
association lists that preserve insertion order; property lookup and
assignment match on the exact key string, as JS property access does. -/
abbrev Headers := List (String × String)

/-- Property read `headers[k]`: the value at the first entry whose key is
exactly `k`, `none` when the key is absent (JS `undefined`). -/
def getHeader : Headers → String → Option String
  | [], _ => none
  | (k', v') :: rest, k => if k' == k then some v' else getHeader rest k

/-- Property write `headers[k] = v`: updates the first entry with key `k`
in place, or appends a new entry at the end, exactly as JS property
assignment does on an object. -/
def setHeader : Headers → String → String → Headers
  | [], k, v => [(k, v)]
  | (k', v') :: rest, k, v =>
      if k' == k then (k', v) :: rest else (k', v') :: setHeader rest k v

/-- JS truthiness of `headers[k]` where the value is a string or absent:
`undefined` (absent) and the empty string are falsy, every other string is
truthy.  The source guards `!options.headers["Content-Type"]` and
`urlObj.port ? ... : ...` use exactly this test. -/
def isFalsyStr : Option String → Bool
  | none => true
  | some s => s == ""

/-- UTF-8 encoding of one character, as Node's `Buffer` produces it. -/
def utf8Bytes (c : Char) : Bytes :=
  let n := c.toNat
  if n < 0x80 then [n]
  else if n < 0x800 then [0xC0 + n / 64, 0x80 + n % 64]
  else if n < 0x10000 then
    [0xE0 + n / 4096, 0x80 + (n / 64) % 64, 0x80 + n % 64]
  else
    [0xF0 + n / 262144, 0x80 + (n / 4096) % 64, 0x80 + (n / 64) % 64, 0x80 + n % 64]

/-- `Buffer.byteLength(s)`: the number of bytes of the UTF-8 encoding. -/
def jsByteLength (s : String) : Nat :=
  (s.data.map (fun c => (utf8Bytes c).length)).sum

/-- Decimal digits of `n`, most significant first; the first argument is
fuel (`n` itself suffices) so the recursion is structural. -/
def natDecimalAux : Nat → Nat → List Char
  | 0, _ => []
  | fuel + 1, n =>
      if n = 0 then []
      else natDecimalAux fuel (n / 10) ++ [Char.ofNat (48 + n % 10)]

/-- `Number.prototype.toString` for a nonnegative integer (the source
calls `.toString()` on buffer/byte lengths). -/
def natDecimal (n : Nat) : String :=
  if n = 0 then "0" else ⟨natDecimalAux n n⟩

/-- `Number.prototype.toString` for an integer. -/
def intDecimal (n : Int) : String :=
  if n < 0 then "-" ++ natDecimal n.natAbs else natDecimal n.toNat

/-- The whitespace characters `parseInt` skips before parsing. -/
def isJsWhitespace (c : Char) : Bool :=
  c == ' ' || c == '\t' || c == '\n' || c == '\r' ||
  c == '\x0b' || c == '\x0c'

/-- Value of a nonempty run of decimal digits taken from the front of
`cs`; `none` when no leading digit exists (JS `NaN`). -/
def decDigitsValue (cs : List Char) : Option Nat :=
  let ds := cs.takeWhile Char.isDigit
  if ds.isEmpty then none
  else some (ds.foldl (fun a c => a * 10 + (c.toNat - 48)) 0)

/-- Value of one hexadecimal digit, `none` otherwise. -/
def hexDigitValue (c : Char) : Option Nat :=
  if '0' ≤ c ∧ c ≤ '9' then some (c.toNat - 48)
  else if 'a' ≤ c ∧ c ≤ 'f' then some (c.toNat - 87)
  else if 'A' ≤ c ∧ c ≤ 'F' then some (c.toNat - 55)
  else none

/-- Value of a nonempty run of hex digits taken from the front of `cs`. -/
def hexDigitsValue (cs : List Char) : Option Nat :=
  let ds := cs.takeWhile (fun c => (hexDigitValue c).isSome)
  if ds.isEmpty then none
  else some (ds.foldl (fun a c => a * 16 + (hexDigitValue c).getD 0) 0)

/-- JS `parseInt(s)` with no radix argument: skip leading whitespace, an
optional sign, auto-detect a `0x`/`0X` hexadecimal prefix, read the
longest digit run and ignore any trailing garbage; `none` models `NaN`. -/
def parseIntJS (s : String) : Option Int :=
  let cs := s.data.dropWhile isJsWhitespace
  let signAndRest : Int × List Char :=
    match cs with
    | '-' :: rest => (-1, rest)
    | '+' :: rest => (1, rest)
    | _ => (1, cs)
  let body := signAndRest.2
  let mag : Option Nat :=
    match body with
    | '0' :: x :: rest =>
        if x = 'x' ∨ x = 'X' then hexDigitsValue rest
        else decDigitsValue body
    | _ => decDigitsValue body
  mag.map (fun m => signAndRest.1 * (m : Int))

/-! ### JSON values and `JSON.stringify` -/

/-- A JSON-serializable JS value, the shape of data passed to
`requestJson` and of non-buffer objects passed to `requestPost` /
`requestPut`.  JS numbers are embedded as integers. -/
inductive JVal where
  | jnull
  | jbool (b : Bool)
  | jnum (n : Int)
  | jstr (s : String)
  | jarr (elems : List JVal)
  | jobj (fields : List (String × JVal))
deriving Repr

/-- `JSON.stringify` escaping of one string character. -/
def escapeJsonChar (c : Char) : String :=
  if c = '"' then "\\\""
  else if c = '\\' then "\\\\"
  else if c = '\x08' then "\\b"
  else if c = '\x09' then "\\t"
  else if c = '\x0a' then "\\n"
  else if c = '\x0c' then "\\f"
  else if c = '\x0d' then "\\r"
  else if c.toNat < 0x20 then
    "\\u00" ++ ⟨[Char.ofNat (if c.toNat / 16 < 10 then 48 + c.toNat / 16 else 87 + c.toNat / 16),
                 Char.ofNat (if c.toNat % 16 < 10 then 48 + c.toNat % 16 else 87 + c.toNat % 16)]⟩
  else String.singleton c

/-- The JSON string literal for `s`. -/
def jsonQuote (s : String) : String :=
  "\"" ++ String.join (s.data.map escapeJsonChar) ++ "\""

mutual

/-- `JSON.stringify(v)` for a JSON-serializable value. -/
def jsonStringify : JVal → String
  | .jnull => "null"
  | .jbool true => "true"
  | .jbool false => "false"
  | .jnum n => intDecimal n
  | .jstr s => jsonQuote s
  | .jarr elems => "[" ++ String.intercalate "," (jsonStringifyList elems) ++ "]"
  | .jobj fields => "\x7b" ++ String.intercalate "," (jsonStringifyFields fields) ++ "\x7d"

/-- Serializations of the elements of a JSON array. -/
def jsonStringifyList : List JVal → List String
  | [] => []
  | v :: vs => jsonStringify v :: jsonStringifyList vs

/-- Serializations of the members of a JSON object. -/
def jsonStringifyFields : List (String × JVal) → List String
  | [] => []
  | (k, v) :: fs => (jsonQuote k ++ ":" ++ jsonStringify v) :: jsonStringifyFields fs

end

/-! ### The URL object and the Options Builder (`makeReqOptions`) -/

/-- The outcome of `new URL(url)` for a URL that parses: the fields of
the WHATWG URL object that `makeReqOptions` reads.  `protocol` carries
the trailing colon (`"https:"`); `port` is the serialized explicit port,
or `""` when the URL has no explicit port or the explicit port is the
scheme's default (WHATWG normalization strips default ports). -/
structure URLObj where
  protocol : String
  hostname : String
  port     : String
  pathname : String
  search   : String
deriving DecidableEq, Repr

/-- The error kinds of the pipeline.  The source rejects with the
underlying error object for transport errors, with
`Error("Request timed out")` from the timeout handler, with
`Error("Content-Type header is missing")` from the end-of-response
handler, and `new URL` throws for a malformed URL; the four rejection
sites are embedded as the four constructors. -/
inductive ReqError where
  | invalidUrl
  | transportError (cause : String)
  | requestTimedOut
  | missingContentType
deriving DecidableEq, Repr

/-- The request descriptor built by `makeReqOptions` (source lines
180–187).  `port` is `Option Int` because the source computes
`parseInt(urlObj.port)`, which is `NaN` (here `none`) on a non-numeric
port field — unreachable for real URL objects. -/
structure RequestOptions where
  hostname : String
  path     : String
  port     : Option Int
  protocol : String
  headers  : Headers
  method   : String
deriving DecidableEq, Repr

/-- Port resolution of `makeReqOptions` (source lines 177–178):
`urlObj.port ? parseInt(urlObj.port) : urlObj.protocol === "https:" ? 443 : 80`. -/
def resolvePort (u : URLObj) : Option Int :=
  if u.port == "" then some (if u.protocol == "https:" then 443 else 80)
  else parseIntJS u.port

/-- The success path of `makeReqOptions` (source lines 172–188), applied
to the already-parsed URL object. -/
def buildReqOptions (u : URLObj) (headers : Headers) (method : String) : RequestOptions :=
  { hostname := u.hostname
  , path     := u.pathname ++ u.search
  , port     := resolvePort u
  , protocol := u.protocol
  , headers  := headers
  , method   := method }

/-- `makeReqOptions` (source lines 172–188).  `new URL(url)` is the
external WHATWG parser; its outcome is the `Option URLObj` input, `none`
for a malformed URL string, in which case the function throws before
anything else runs. -/
def makeReqOptions (parsed : Option URLObj) (headers : Headers) (method : String) :
    Except ReqError RequestOptions :=
  match parsed with
  | none => .error .invalidUrl
  | some u => .ok (buildReqOptions u headers method)

/-! ### The Body Encoder (`postPut`, `sendPost`, `requestForm`) -/

/-- The `data` argument of `sendPost` / `sendRequest`: a byte buffer or
a string (`null` is embedded as `none` at the use sites). -/
inductive PostData where
  | buf (bytes : Bytes)
  | str (s : String)
deriving DecidableEq, Repr

/-- The `data` argument of `requestPost` / `requestPut`, one constructor
per branch of `postPut`'s runtime type inspection: `null`, `undefined`,
a `Buffer`, a non-buffer object, a string, or another primitive (JS
numbers embedded as integers, and booleans). -/
inductive JSData where
  | nullVal
  | undefinedVal
  | buf (bytes : Bytes)
  | obj (v : JVal)
  | str (s : String)
  | num (n : Int)
  | boolVal (b : Bool)
deriving Repr

/-- `String(data)` for the primitives that fall through to `postPut`'s
last branch, and the template-literal coercion used by `requestForm`. -/
def jsToString : JSData → String
  | .nullVal => "null"
  | .undefinedVal => "undefined"
  | .buf _ => ""
  | .obj _ => ""
  | .str s => s
  | .num n => intDecimal n
  | .boolVal true => "true"
  | .boolVal false => "false"

/-- The branch cascade of `postPut` (source lines 146–162): picks the
payload and the mode-derived content type handed to `sendPost`.
`null`/`undefined` pass `(null, "")`; a buffer passes unchanged with
`application/octet-stream`; a non-buffer object is `JSON.stringify`ed
with `application/json;charset=utf-8`; a string passes unchanged with
`text/plain;charset=utf-8`; anything else is `String(data)` with
`text/plain;charset=utf-8`. -/
def postPutEncode : JSData → Option PostData × String
  | .nullVal => (none, "")
  | .undefinedVal => (none, "")
  | .buf b => (some (.buf b), "application/octet-stream")
  | .obj v => (some (.str (jsonStringify v)), "application/json;charset=utf-8")
  | .str s => (some (.str s), "text/plain;charset=utf-8")
  | .num n => (some (.str (jsToString (.num n))), "text/plain;charset=utf-8")
  | .boolVal b => (some (.str (jsToString (.boolVal b))), "text/plain;charset=utf-8")

/-- The byte length of the final payload: buffer length for bytes, UTF-8
byte length for text, `0` when absent. -/
def payloadByteLength : Option PostData → Nat
  | none => 0
  | some (.buf b) => b.length
  | some (.str s) => jsByteLength s

/-- The header mutation of `sendPost` (source lines 197–208):
`Content-Length` is always assigned from the payload's byte length
(`"0"` when the payload is neither buffer nor string), then the
mode-derived `Content-Type` is assigned only when it is truthy and the
existing `Content-Type` value is falsy
(`if (contentType && !options.headers["Content-Type"])`). -/
def sendPostHeaders (headers : Headers) (data : Option PostData) (contentType : String) : Headers :=
  let h1 :=
    match data with
    | some (.buf b) => setHeader headers "Content-Length" (natDecimal b.length)
    | some (.str s) => setHeader headers "Content-Length" (natDecimal (jsByteLength s))
    | none          => setHeader headers "Content-Length" "0"
  if contentType ≠ "" ∧ isFalsyStr (getHeader h1 "Content-Type") then
    setHeader h1 "Content-Type" contentType
  else h1

/-- Characters `encodeURIComponent` leaves unescaped
(ECMA-262 `uriUnescaped`): alphanumerics and `- _ . ! ~ * ' ( )`. -/
def isUriUnescaped (c : Char) : Bool :=
  (('A' ≤ c ∧ c ≤ 'Z') ∨ ('a' ≤ c ∧ c ≤ 'z') ∨ ('0' ≤ c ∧ c ≤ '9') ∨
   c = '-' ∨ c = '_' ∨ c = '.' ∨ c = '!' ∨ c = '~' ∨ c = '*' ∨
   c = '\x27' ∨ c = '(' ∨ c = ')' : Bool)

/-- `%XX` escape of one byte, uppercase hex. -/
def pctByte (b : Nat) : String :=
  let hexChar : Nat → Char := fun n => Char.ofNat (if n < 10 then 48 + n else 55 + n)
  ⟨['%', hexChar (b / 16 % 16), hexChar (b % 16)]⟩

/-- `encodeURIComponent(s)`: each unescaped character passes through,
every other character is replaced by the `%XX` escapes of its UTF-8
bytes. -/
def encodeURIComponent (s : String) : String :=
  String.join (s.data.map (fun c =>
    if isUriUnescaped c then String.singleton c
    else String.join ((utf8Bytes c).map pctByte)))

/-- A form-data value: the `Record<string, string|number|any>` map's
values, coerced to strings by the template literal in `requestForm`. -/
abbrev FormData := List (String × JSData)

/-- The `params` array built by `requestForm`'s loop (source lines
119–123): one `key=value` string per entry, key and value
percent-encoded independently; the list follows the object's key
enumeration order. -/
def formParams (formData : FormData) : List String :=
  formData.map (fun p => encodeURIComponent p.1 ++ "=" ++ encodeURIComponent (jsToString p.2))

/-- `params.join("&")` (source line 126). -/
def formQuery (formData : FormData) : String :=
  String.intercalate "&" (formParams formData)

/-! ### The Transport Dispatcher (`sendRequest`) -/

/-- What the transport delivers for one request: the fields of the
`IncomingMessage` that `reqCallback` reads.  Node lower-cases incoming
header names, hence the callback's lookup of `"content-type"`.  `chunks`
are the `data` events in arrival order. -/
structure IncomingResponse where
  headers       : Headers
  statusCode    : Option Nat
  statusMessage : Option String
  chunks        : List Bytes
deriving DecidableEq, Repr

/-- The single terminal event of one dispatched request: a request-level
error (`req.on("error")`, carrying the underlying cause), the armed
timeout firing (`req.on("timeout")`), or a complete response
(`reqCallback` with its `end` event). -/
inductive TransportEvent where
  | reqError (cause : String)
  | timeout
  | response (res : IncomingResponse)
deriving DecidableEq, Repr

/-- The caller-visible result record assembled by `reqCallback` (source
lines 275–285), parametrized by the body decoder's output type. -/
structure ClientRequestResponse (α : Type) where
  response      : α
  headers       : Headers
  host          : String
  method        : String
  path          : String
  protocol      : String
  statusCode    : Nat
  statusMessage : String
deriving Repr

/-- The timeout arming of `sendRequest` (source lines 224–231): when the
header map has a `Request-Timeout` entry (header values are strings, so
the `typeof === "string"` guard is presence) whose `parseInt` is not
`NaN`, `req.setTimeout(timeOut * 1000)` arms that many milliseconds;
otherwise no timeout is armed. -/
def armTimeoutMs (headers : Headers) : Option Int :=
  match getHeader headers "Request-Timeout" with
  | none => none
  | some v => (parseIntJS v).map (· * 1000)

/-- JS truthiness of `postData` in `if (postData) req.write(postData)`
(source lines 243–245): `null` and the empty string are falsy, a buffer
object (even an empty one) and a nonempty string are truthy. -/
def jsTruthyData : Option PostData → Bool
  | none => false
  | some (.buf _) => true
  | some (.str s) => s != ""

/-- The `end`-of-response handler of `reqCallback` (source lines
264–288): a falsy `content-type` header rejects with the
missing-Content-Type error; otherwise the chunks are concatenated in
arrival order, decoded by the external `parseRequestBody` collaborator
(`decodeBody`), and the result record is assembled with
`res.statusCode || 0` and `res.statusMessage || ""` defaults. -/
def reqCallbackEnd {α : Type} (decodeBody : Bytes → String → α)
    (options : RequestOptions) (res : IncomingResponse) :
    Except ReqError (ClientRequestResponse α) :=
  match getHeader res.headers "content-type" with
  | none => .error .missingContentType
  | some ct =>
      if ct == "" then .error .missingContentType
      else
        .ok { response      := decodeBody res.chunks.flatten ct
            , headers       := res.headers
            , host          := options.hostname
            , method        := options.method
            , path          := options.path
            , protocol      := options.protocol
            , statusCode    := res.statusCode.getD 0
            , statusMessage := res.statusMessage.getD "" }

/-- Everything observable about one call of `sendRequest` (source lines
219–291) for a given terminal event: the armed timeout (the
`setTimeout` argument in milliseconds, when armed), what `req.write`
wrote, whether `req.destroy()` ran, and how the promise settled. -/
structure DispatchTrace (α : Type) where
  armedMs   : Option Int
  written   : Option PostData
  destroyed : Bool
  outcome   : Except ReqError (ClientRequestResponse α)
deriving Repr

/-- `sendRequest` (source lines 219–291) as a function of its single
terminal event: the error handler rejects with the underlying cause, the
timeout handler destroys the request and rejects with the timed-out
error, and a complete response runs the `end` handler. -/
def sendRequest {α : Type} (decodeBody : Bytes → String → α)
    (options : RequestOptions) (postData : Option PostData)
    (ev : TransportEvent) : DispatchTrace α :=
  { armedMs   := armTimeoutMs options.headers
  , written   := if jsTruthyData postData then postData else none
  , destroyed := ev = TransportEvent.timeout
  , outcome   :=
      match ev with
      | .reqError cause => .error (.transportError cause)
      | .timeout => .error .requestTimedOut
      | .response res => reqCallbackEnd decodeBody options res }

/-! ### Public operations -/

/-- The synchronous preparation phase of one public operation: the built
descriptor (headers already mutated by `sendPost` where applicable) and
the `postData` handed to `sendRequest`. -/
structure PreparedReq where
  options  : RequestOptions
  postData : Option PostData
deriving Repr

/-- `sendPost` (source lines 197–211): mutate the headers, then hand the
descriptor and the payload to `sendRequest`. -/
def sendPostPrep (options : RequestOptions) (data : Option PostData)
    (contentType : String) : PreparedReq :=
  { options  := { options with headers := sendPostHeaders options.headers data contentType }
  , postData := data }

/-- `requestHead` (source lines 50–55). -/
def requestHead (parsed : Option URLObj) (headers : Headers) : Except ReqError PreparedReq :=
  (makeReqOptions parsed headers "HEAD").map (fun o => ⟨o, none⟩)

/-- `requestGet` (source lines 63–68). -/
def requestGet (parsed : Option URLObj) (headers : Headers) : Except ReqError PreparedReq :=
  (makeReqOptions parsed headers "GET").map (fun o => ⟨o, none⟩)

/-- `postPut` (source lines 142–163): build the options (the URL parse
happens here, first), pick the encoding branch, run `sendPost`. -/
def postPut (method : String) (parsed : Option URLObj) (data : JSData)
    (headers : Headers) : Except ReqError PreparedReq :=
  (makeReqOptions parsed headers method).map (fun o =>
    let enc := postPutEncode data
    sendPostPrep o enc.1 enc.2)

/-- `requestPost` (source lines 77–80). -/
def requestPost (parsed : Option URLObj) (data : JSData) (headers : Headers) :
    Except ReqError PreparedReq :=
  postPut "POST" parsed data headers

/-- `requestPut` (source lines 89–91). -/
def requestPut (parsed : Option URLObj) (data : JSData) (headers : Headers) :
    Except ReqError PreparedReq :=
  postPut "PUT" parsed data headers

/-- `requestJson` (source lines 100–105): always `JSON.stringify`, always
mode content type `application/json;charset=utf-8`. -/
def requestJson (parsed : Option URLObj) (data : JVal) (headers : Headers) :
    Except ReqError PreparedReq :=
  (makeReqOptions parsed headers "POST").map (fun o =>
    sendPostPrep o (some (.str (jsonStringify data))) "application/json;charset=utf-8")

/-- `requestForm` (source lines 114–132): percent-encode the flat map,
join, send with mode content type `application/x-www-form-urlencoded`. -/
def requestForm (parsed : Option URLObj) (formData : FormData) (headers : Headers) :
    Except ReqError PreparedReq :=
  (makeReqOptions parsed headers "POST").map (fun o =>
    sendPostPrep o (some (.str (formQuery formData))) "application/x-www-form-urlencoded")

/-- One observable network-level action of the dispatcher. -/
inductive NetAction where
  | connect (protocol hostname : String) (port : Option Int)
  | write (data : PostData)
  | endReq
deriving DecidableEq, Repr

/-- The network actions `sendRequest` performs for a prepared request:
open the connection (`transporter.request`), write the payload when it
is truthy, signal end-of-request. -/
def netTrace (pr : PreparedReq) : List NetAction :=
  [NetAction.connect pr.options.protocol pr.options.hostname pr.options.port] ++
  (match pr.postData with
   | some d => if jsTruthyData (some d) then [NetAction.write d] else []
   | none => []) ++
  [NetAction.endReq]

/-- A whole public operation: on a preparation failure (a malformed URL)
the rejection surfaces with no network action at all; otherwise the
request is dispatched and settles on its terminal event. -/
def runRequest {α : Type} (decodeBody : Bytes → String → α)
    (prep : Except ReqError PreparedReq) (ev : TransportEvent) :
    List NetAction × Except ReqError (ClientRequestResponse α) :=
  match prep with
  | .error e => ([], .error e)
  | .ok pr => (netTrace pr, (sendRequest decodeBody pr.options pr.postData ev).outcome)

/-! ### Helper lemmas about the header map -/

theorem getHeader_setHeader_self (hs : Headers) (k v : String) :
    getHeader (setHeader hs k v) k = some v := by
  induction hs with
  | nil => simp [setHeader, getHeader]
  | cons p rest ih =>
      obtain ⟨k', v'⟩ := p
      by_cases h : k' = k
      · simp [setHeader, getHeader, h]
      · simp [setHeader, getHeader, h, ih]

theorem getHeader_setHeader_of_ne (hs : Headers) (k v k' : String) (h : k' ≠ k) :
    getHeader (setHeader hs k v) k' = getHeader hs k' := by
  induction hs with
  | nil => simp [setHeader, getHeader, Ne.symm h]
  | cons p rest ih =>
      obtain ⟨k₀, v₀⟩ := p
      by_cases h₀ : k₀ = k
      · subst h₀
        simp [setHeader, getHeader, Ne.symm h]
      · by_cases h₁ : k₀ = k'
        · subst h₁
          simp [setHeader, getHeader, h₀]
        · simp [setHeader, getHeader, h₀, h₁, ih]

/-- The `Content-Length` entry after `sendPost`'s header mutation: always
the decimal byte length of the final payload, whatever the map held
before. -/
theorem sendPostHeaders_contentLength (headers : Headers) (pd : Option PostData) (d : String) :
    getHeader (sendPostHeaders headers pd d) "Content-Length" =
      some (natDecimal (payloadByteLength pd)) := by
  have hne : ("Content-Length" : String) ≠ "Content-Type" := by decide
  cases pd with
  | none =>
      simp only [sendPostHeaders, payloadByteLength]
      split
      · rw [getHeader_setHeader_of_ne _ _ _ _ hne, getHeader_setHeader_self]
        simp [natDecimal]
      · rw [getHeader_setHeader_self]
        simp [natDecimal]
  | some p =>
      cases p with
      | buf b =>
          simp only [sendPostHeaders, payloadByteLength]
          split
          · rw [getHeader_setHeader_of_ne _ _ _ _ hne, getHeader_setHeader_self]
          · rw [getHeader_setHeader_self]
      | str s =>
          simp only [sendPostHeaders, payloadByteLength]
          split
          · rw [getHeader_setHeader_of_ne _ _ _ _ hne, getHeader_setHeader_self]
          · rw [getHeader_setHeader_self]

/-- The `Content-Type` entry after `sendPost`'s header mutation: the
mode default exactly when the default is truthy (nonempty) and the
caller's value is falsy (absent or empty); the caller's value
otherwise. -/
theorem sendPostHeaders_contentType (headers : Headers) (pd : Option PostData) (d : String) :
    getHeader (sendPostHeaders headers pd d) "Content-Type" =
      if d ≠ "" ∧ isFalsyStr (getHeader headers "Content-Type") then some d
      else getHeader headers "Content-Type" := by
  have hne : ("Content-Type" : String) ≠ "Content-Length" := by decide
  cases pd with
  | none =>
      simp only [sendPostHeaders, getHeader_setHeader_of_ne _ _ _ _ hne]
      split
      · rw [getHeader_setHeader_self]
      · rw [getHeader_setHeader_of_ne _ _ _ _ hne]
  | some p =>
      cases p with
      | buf b =>
          simp only [sendPostHeaders, getHeader_setHeader_of_ne _ _ _ _ hne]
          split
          · rw [getHeader_setHeader_self]
          · rw [getHeader_setHeader_of_ne _ _ _ _ hne]
      | str s =>
          simp only [sendPostHeaders, getHeader_setHeader_of_ne _ _ _ _ hne]
          split
          · rw [getHeader_setHeader_self]
          · rw [getHeader_setHeader_of_ne _ _ _ _ hne]

/-- `sendPost`'s header mutation touches no key other than
`Content-Length` and `Content-Type`. -/
theorem sendPostHeaders_other (headers : Headers) (pd : Option PostData) (d : String)
    (k : String) (hct : k ≠ "Content-Type") (hcl : k ≠ "Content-Length") :
    getHeader (sendPostHeaders headers pd d) k = getHeader headers k := by
  cases pd with
  | none =>
      simp only [sendPostHeaders]
      split
      · rw [getHeader_setHeader_of_ne _ _ _ _ hct, getHeader_setHeader_of_ne _ _ _ _ hcl]
      · rw [getHeader_setHeader_of_ne _ _ _ _ hcl]
  | some p =>
      cases p with
      | buf b =>
          simp only [sendPostHeaders]
          split
          · rw [getHeader_setHeader_of_ne _ _ _ _ hct, getHeader_setHeader_of_ne _ _ _ _ hcl]
          · rw [getHeader_setHeader_of_ne _ _ _ _ hcl]
      | str s =>
          simp only [sendPostHeaders]
          split
          · rw [getHeader_setHeader_of_ne _ _ _ _ hct, getHeader_setHeader_of_ne _ _ _ _ hcl]
          · rw [getHeader_setHeader_of_ne _ _ _ _ hcl]

/-! ### Concrete fixtures used by witnesses -/

/-- A parsed `https://example.com/` with no explicit port. -/
def urlHttpsNoPort : URLObj := ⟨"https:", "example.com", "", "/", ""⟩

/-- A parsed `http://example.com/` with no explicit port. -/
def urlHttpNoPort : URLObj := ⟨"http:", "example.com", "", "/", ""⟩

/-- A parsed `http://example.com:8080/a?b=1`. -/
def urlHttpPort8080 : URLObj := ⟨"http:", "example.com", "8080", "/a", "?b=1"⟩

/-- A descriptor whose header map asks for a 5-second timeout. -/
def optsTimeoutEx : RequestOptions :=
  { hostname := "example.com", path := "/", port := some 443, protocol := "https:"
  , headers := [("Request-Timeout", "5")], method := "GET" }

/-- A response with status 200 and no `content-type` header. -/
def resNoContentType : IncomingResponse :=
  { headers := [("content-length", "0")], statusCode := some 200
  , statusMessage := some "OK", chunks := [] }

/-! ### Claim theorems -/

/-- C1: when the request header map has a `Request-Timeout` entry whose
value `parseInt`s to the integer `n`, the dispatcher arms a timeout of
`n` seconds (`setTimeout(n * 1000)` milliseconds); if the timeout event
fires, the in-flight request is destroyed and the operation fails with
the timed-out error, which is a different error kind from the transport
error produced by the generic error handler. -/
theorem timeout_arming_and_timedout_failure {α : Type}
    (decodeBody : Bytes → String → α) (options : RequestOptions)
    (postData : Option PostData) (v : String) (n : Int)
    (hv : getHeader options.headers "Request-Timeout" = some v)
    (hn : parseIntJS v = some n) :
    (sendRequest decodeBody options postData TransportEvent.timeout).armedMs = some (n * 1000) ∧
    (sendRequest decodeBody options postData TransportEvent.timeout).destroyed = true ∧
    (sendRequest decodeBody options postData TransportEvent.timeout).outcome
      = Except.error ReqError.requestTimedOut ∧
    (∀ cause : String,
      (sendRequest decodeBody options postData (TransportEvent.reqError cause)).outcome
        = Except.error (ReqError.transportError cause)) ∧
    (∀ cause : String, ReqError.requestTimedOut ≠ ReqError.transportError cause) := by
  refine ⟨?_, by simp [sendRequest], rfl, fun cause => rfl, fun cause => by simp⟩
  simp [sendRequest, armTimeoutMs, hv, hn]

/-- Witness for C1 at the concrete header value `"5"`. -/
theorem timeout_arming_and_timedout_failure_witness :
    (sendRequest (fun _ _ => ("" : String)) optsTimeoutEx none TransportEvent.timeout).armedMs
      = some 5000 ∧
    (sendRequest (fun _ _ => ("" : String)) optsTimeoutEx none TransportEvent.timeout).outcome
      = Except.error ReqError.requestTimedOut := by
  have h := timeout_arming_and_timedout_failure (fun _ _ => ("" : String)) optsTimeoutEx none
    "5" 5 (by decide) (by decide)
  exact ⟨h.1, h.2.2.1⟩

/-- C2: a response whose header map has no `content-type` entry makes
the operation fail with the missing-Content-Type error, whatever the
status code; no result record is produced. -/
theorem missing_content_type_rejects {α : Type}
    (decodeBody : Bytes → String → α) (options : RequestOptions)
    (postData : Option PostData) (res : IncomingResponse)
    (h : getHeader res.headers "content-type" = none) :
    (sendRequest decodeBody options postData (TransportEvent.response res)).outcome
      = Except.error ReqError.missingContentType ∧
    ∀ r : ClientRequestResponse α,
      (sendRequest decodeBody options postData (TransportEvent.response res)).outcome
        ≠ Except.ok r := by
  constructor
  · simp [sendRequest, reqCallbackEnd, h]
  · intro r
    simp [sendRequest, reqCallbackEnd, h]

/-- Witness for C2 at a concrete response with success status 200. -/
theorem missing_content_type_rejects_witness :
    (sendRequest (fun _ _ => ("" : String)) optsTimeoutEx none
        (TransportEvent.response resNoContentType)).outcome
      = Except.error ReqError.missingContentType :=
  (missing_content_type_rejects (fun _ _ => ("" : String)) optsTimeoutEx none
    resNoContentType (by decide)).1

/-- C4: the `Content-Length` header after encoding is always the decimal
byte length of the final payload — buffer length for bytes, UTF-8 byte
length for text, `"0"` when the payload is absent — whatever value the
caller's map held before, and this holds through `postPut` (POST and
PUT), `requestJson` and `requestForm`. -/
theorem content_length_recomputed (headers : Headers) (pd : Option PostData) (d : String)
    (method : String) (u : URLObj) (data : JSData) (jdata : JVal) (fd : FormData) :
    getHeader (sendPostHeaders headers pd d) "Content-Length"
      = some (natDecimal (payloadByteLength pd)) ∧
    payloadByteLength none = 0 ∧ natDecimal 0 = "0" ∧
    (postPut method (some u) data headers).map
        (fun pr => getHeader pr.options.headers "Content-Length")
      = Except.ok (some (natDecimal (payloadByteLength (postPutEncode data).1))) ∧
    (requestJson (some u) jdata headers).map
        (fun pr => getHeader pr.options.headers "Content-Length")
      = Except.ok (some (natDecimal (jsByteLength (jsonStringify jdata)))) ∧
    (requestForm (some u) fd headers).map
        (fun pr => getHeader pr.options.headers "Content-Length")
      = Except.ok (some (natDecimal (jsByteLength (formQuery fd)))) := by
  refine ⟨sendPostHeaders_contentLength headers pd d, rfl, rfl, ?_, ?_, ?_⟩
  · simp [postPut, makeReqOptions, Except.map, sendPostPrep, buildReqOptions,
      sendPostHeaders_contentLength]
  · simp [requestJson, makeReqOptions, Except.map, sendPostPrep, buildReqOptions,
      sendPostHeaders_contentLength, payloadByteLength]
  · simp [requestForm, makeReqOptions, Except.map, sendPostPrep, buildReqOptions,
      sendPostHeaders_contentLength, payloadByteLength]

/-- C6: port resolution of the Options Builder — an empty WHATWG `port`
field (no explicit port, or the scheme's stripped default) resolves to
443 for `https:` and to 80 otherwise, and a nonempty field (an explicit
non-default port) resolves to its parsed value, which the descriptor
carries. -/
theorem port_resolution (u : URLObj) (p : Int) (headers : Headers) (method : String) :
    (u.port = "" → resolvePort u = some (if u.protocol == "https:" then 443 else 80)) ∧
    (u.port ≠ "" → parseIntJS u.port = some p → resolvePort u = some p) ∧
    (buildReqOptions u headers method).port = resolvePort u := by
  refine ⟨?_, ?_, rfl⟩
  · intro h
    simp [resolvePort, h]
  · intro h hp
    simp [resolvePort, h, hp]

/-- Witness for C6: the default ports of both schemes and an explicit
port 8080. -/
theorem port_resolution_witness :
    resolvePort urlHttpsNoPort = some 443 ∧
    resolvePort urlHttpNoPort = some 80 ∧
    resolvePort urlHttpPort8080 = some 8080 := by
  refine ⟨?_, ?_, ?_⟩
  · simpa using (port_resolution urlHttpsNoPort 0 [] "GET").1 rfl
  · simpa using (port_resolution urlHttpNoPort 0 [] "GET").1 rfl
  · exact (port_resolution urlHttpPort8080 8080 [] "GET").2.1 (by decide) (by decide)

/-- C7: when the URL string is malformed (`new URL` throws, modelled by
a `none` parse outcome), every public operation fails with the
invalid-URL error and performs no network action at all: no connection
is opened and nothing is written. -/
theorem invalid_url_fails_before_network {α : Type}
    (decodeBody : Bytes → String → α) (headers : Headers) (data : JSData)
    (jdata : JVal) (fd : FormData) (ev : TransportEvent) :
    runRequest decodeBody (requestHead none headers) ev
      = ([], Except.error ReqError.invalidUrl) ∧
    runRequest decodeBody (requestGet none headers) ev
      = ([], Except.error ReqError.invalidUrl) ∧
    runRequest decodeBody (requestPost none data headers) ev
      = ([], Except.error ReqError.invalidUrl) ∧
    runRequest decodeBody (requestPut none data headers) ev
      = ([], Except.error ReqError.invalidUrl) ∧
    runRequest decodeBody (requestJson none jdata headers) ev
      = ([], Except.error ReqError.invalidUrl) ∧
    runRequest decodeBody (requestForm none fd headers) ev
      = ([], Except.error ReqError.invalidUrl) :=
  ⟨rfl, rfl, rfl, rfl, rfl, rfl⟩

/-- C3: `postPut` (behind `requestPost` and `requestPut`) picks the
encoding from the shape of `data`: `null`/`undefined` give no payload
and force no `Content-Type`; a buffer passes unchanged with the
octet-stream default; a non-buffer object is `JSON.stringify`ed with the
JSON default; a string passes unchanged with the text default.  The
mode default lands in the header map exactly when it is nonempty and
the caller's `Content-Type` is unset — read, as the source's truthiness
guard does, as absent or empty. -/
theorem post_put_encoding_modes (method : String) (u : URLObj) (headers : Headers)
    (data : JSData) (b : Bytes) (o : JVal) (s d : String) (pd : Option PostData) :
    postPut method (some u) data headers
      = Except.ok (sendPostPrep (buildReqOptions u headers method)
          (postPutEncode data).1 (postPutEncode data).2) ∧
    postPutEncode JSData.nullVal = (none, "") ∧
    postPutEncode JSData.undefinedVal = (none, "") ∧
    postPutEncode (JSData.buf b) = (some (PostData.buf b), "application/octet-stream") ∧
    postPutEncode (JSData.obj o)
      = (some (PostData.str (jsonStringify o)), "application/json;charset=utf-8") ∧
    postPutEncode (JSData.str s) = (some (PostData.str s), "text/plain;charset=utf-8") ∧
    getHeader (sendPostHeaders headers pd d) "Content-Type"
      = (if d ≠ "" ∧ isFalsyStr (getHeader headers "Content-Type") then some d
         else getHeader headers "Content-Type") ∧
    getHeader (sendPostHeaders headers none "") "Content-Type"
      = getHeader headers "Content-Type" := by
  refine ⟨rfl, rfl, rfl, rfl, rfl, rfl, sendPostHeaders_contentType headers pd d, ?_⟩
  simpa using sendPostHeaders_contentType headers none ""

/-- C5 counterexample: the caller's header map contains a
`Content-Type` entry whose value is the empty string; the source's
presence check `!options.headers["Content-Type"]` is a truthiness test,
so the encoder overwrites that entry with the mode default instead of
leaving it unchanged. -/
theorem caller_content_type_entry_overwritten :
    getHeader [("Content-Type", "")] "Content-Type" = some "" ∧
    (requestPost (some urlHttpsNoPort) (JSData.str "hi") [("Content-Type", "")]).map
        (fun pr => getHeader pr.options.headers "Content-Type")
      = Except.ok (some "text/plain;charset=utf-8") ∧
    (some "" : Option String) ≠ some "text/plain;charset=utf-8" := by
  refine ⟨rfl, rfl, by decide⟩

/-- C5 (amended): when the caller's header map contains a
`Content-Type` entry with a non-empty value, the encoder leaves that
entry's value unchanged, and it changes no entry under a key other than
`Content-Type` and `Content-Length`. -/
theorem caller_content_type_preserved (headers : Headers) (pd : Option PostData)
    (d v : String) (hv : getHeader headers "Content-Type" = some v) (hne : v ≠ "") :
    getHeader (sendPostHeaders headers pd d) "Content-Type" = some v ∧
    ∀ k, k ≠ "Content-Type" → k ≠ "Content-Length" →
      getHeader (sendPostHeaders headers pd d) k = getHeader headers k := by
  constructor
  · rw [sendPostHeaders_contentType, hv]
    have hfalsy : isFalsyStr (some v) = false := by
      simp [isFalsyStr, hne]
    simp [hfalsy]
  · intro k h1 h2
    exact sendPostHeaders_other headers pd d k h1 h2

/-- Witness for the amended C5 at a concrete caller map. -/
theorem caller_content_type_preserved_witness :
    getHeader (sendPostHeaders [("Content-Type", "application/xml"), ("Client", "svc")]
        (some (PostData.str "hi")) "text/plain;charset=utf-8") "Content-Type"
      = some "application/xml" ∧
    getHeader (sendPostHeaders [("Content-Type", "application/xml"), ("Client", "svc")]
        (some (PostData.str "hi")) "text/plain;charset=utf-8") "Client" = some "svc" := by
  have h := caller_content_type_preserved
    [("Content-Type", "application/xml"), ("Client", "svc")]
    (some (PostData.str "hi")) "text/plain;charset=utf-8" "application/xml"
    (by decide) (by decide)
  exact ⟨h.1, (h.2 "Client" (by decide) (by decide)).trans (by decide)⟩

/-- C8: `requestForm` percent-encodes every key and value of the flat
map independently, joins pairs as `key=value` with `&`, and applies the
form default `Content-Type` exactly when the caller's value is falsy
(absent or the empty string — the source's truthiness guard); on the
map of 42 and "foo" the payload is `number=42&text=foo` in key
enumeration order. -/
theorem form_encoding (u : URLObj) (headers : Headers) (fd : FormData) :
    requestForm (some u) fd headers
      = Except.ok (sendPostPrep (buildReqOptions u headers "POST")
          (some (PostData.str (formQuery fd))) "application/x-www-form-urlencoded") ∧
    formQuery fd = String.intercalate "&"
        (fd.map (fun p => encodeURIComponent p.1 ++ "="
          ++ encodeURIComponent (jsToString p.2))) ∧
    getHeader (sendPostHeaders headers (some (PostData.str (formQuery fd)))
        "application/x-www-form-urlencoded") "Content-Type"
      = (if isFalsyStr (getHeader headers "Content-Type")
         then some "application/x-www-form-urlencoded"
         else getHeader headers "Content-Type") ∧
    formQuery [("number", JSData.num 42), ("text", JSData.str "foo")]
      = "number=42&text=foo" := by
  refine ⟨rfl, rfl, ?_, by decide⟩
  rw [sendPostHeaders_contentType]
  have hne : ("application/x-www-form-urlencoded" : String) ≠ "" := by decide
  simp [hne]

/-- C9: for `requestPost`/`requestPut` with the empty string as data,
the encoder classifies it as text — `Content-Type` becomes
`text/plain;charset=utf-8` when the caller set none, `Content-Length`
becomes `"0"` — yet the dispatcher's truthiness guard skips
`req.write`, exactly as for an absent payload. -/
theorem empty_string_data_headers_but_no_write (method : String) (u : URLObj)
    (headers : Headers) (h : getHeader headers "Content-Type" = none) :
    postPut method (some u) (JSData.str "") headers
      = Except.ok (sendPostPrep (buildReqOptions u headers method)
          (some (PostData.str "")) "text/plain;charset=utf-8") ∧
    getHeader (sendPostHeaders headers (some (PostData.str "")) "text/plain;charset=utf-8")
        "Content-Type" = some "text/plain;charset=utf-8" ∧
    getHeader (sendPostHeaders headers (some (PostData.str "")) "text/plain;charset=utf-8")
        "Content-Length" = some "0" ∧
    (∀ {α : Type} (decodeBody : Bytes → String → α) (options : RequestOptions)
        (ev : TransportEvent),
      (sendRequest decodeBody options (some (PostData.str "")) ev).written = none ∧
      (sendRequest decodeBody options (some (PostData.str "")) ev).written
        = (sendRequest decodeBody options none ev).written) := by
  refine ⟨rfl, ?_, ?_, ?_⟩
  · have hcond : ("text/plain;charset=utf-8" : String) ≠ ""
        ∧ isFalsyStr (getHeader headers "Content-Type") = true := by
      exact ⟨by decide, by rw [h]; rfl⟩
    rw [sendPostHeaders_contentType, if_pos hcond]
  · rw [sendPostHeaders_contentLength]
    decide
  · intro α decodeBody options ev
    exact ⟨rfl, rfl⟩

/-- Witness for C9 at a caller map with no `Content-Type`. -/
theorem empty_string_data_headers_but_no_write_witness :
    getHeader (sendPostHeaders [("Client", "svc")] (some (PostData.str ""))
        "text/plain;charset=utf-8") "Content-Type" = some "text/plain;charset=utf-8" ∧
    getHeader (sendPostHeaders [("Client", "svc")] (some (PostData.str ""))
        "text/plain;charset=utf-8") "Content-Length" = some "0" := by
  have h := empty_string_data_headers_but_no_write "POST" urlHttpsNoPort
    [("Client", "svc")] (by decide)
  exact ⟨h.2.1, h.2.2.1⟩

/-- C10: for `requestPost`/`requestPut` with data that is neither
`null`/`undefined`, a buffer, an object, nor a string — a number or a
boolean — the final branch of `postPut` converts the value with
`String(data)` and sends it as text with the `text/plain` default
(applied when the caller's `Content-Type` is falsy); nothing is
rejected. -/
theorem primitive_data_sent_as_text (method : String) (u : URLObj) (headers : Headers)
    (n : Int) (bv : Bool) :
    postPut method (some u) (JSData.num n) headers
      = Except.ok (sendPostPrep (buildReqOptions u headers method)
          (some (PostData.str (jsToString (JSData.num n)))) "text/plain;charset=utf-8") ∧
    postPut method (some u) (JSData.boolVal bv) headers
      = Except.ok (sendPostPrep (buildReqOptions u headers method)
          (some (PostData.str (jsToString (JSData.boolVal bv)))) "text/plain;charset=utf-8") ∧
    jsToString (JSData.num n) = intDecimal n ∧
    jsToString (JSData.boolVal true) = "true" ∧
    jsToString (JSData.boolVal false) = "false" ∧
    getHeader (sendPostHeaders headers (some (PostData.str (jsToString (JSData.num n))))
        "text/plain;charset=utf-8") "Content-Type"
      = (if isFalsyStr (getHeader headers "Content-Type")
         then some "text/plain;charset=utf-8"
         else getHeader headers "Content-Type") := by
  refine ⟨rfl, rfl, rfl, rfl, rfl, ?_⟩
  rw [sendPostHeaders_contentType]
  have hne : ("text/plain;charset=utf-8" : String) ≠ "" := by decide
  simp [hne]

end ClientRequest
